import Mathlib

set_option maxRecDepth 8000

/-!
# Verification of the anomaly-detection core of the cloud security monitoring demo

Shallow embedding of `src/ml/anomaly_detection.py`:
* rows of the activity / threat tables as association lists of string keys to values,
* the rule-based attack classifier `classify_attack_type`,
* the rule-based risk scorer `calculate_risk_level`,
* the guarded scoring pass `detect_anomalies` of `CloudSecurityAnomalyDetector`,
* the seeded data generator `generate_sample_data`, and
* the threat-building portion of `main`.

Machine floats of the source are modelled by exact rationals; the externally
fitted estimators (`StandardScaler.fit`, `IsolationForest.fit`) are third-party
library state and enter the model as explicit fitted parameters / per-row
functions.
-/

namespace CloudSec

/-- A cell value of a pandas dataframe as this program uses them:
strings (`user_id`, `login_status`, attack and risk labels), numbers
(counts, usages, scores; exact rationals in the model), and booleans
(the `is_anomaly` flag). -/
inductive Value where
  | str (s : String)
  | num (q : ℚ)
  | bool (b : Bool)
deriving DecidableEq, Repr

/-- A dataframe row: ordered association list from column name to value. -/
abbrev Row := List (String × Value)

/-- A dataframe: list of rows in order. -/
abbrev Table := List Row

/-- `row[key]` lookup: first binding of `key`, if any. -/
def lookupVal : Row → String → Option Value
  | [], _ => none
  | (k, v) :: rest, key => if k = key then some v else lookupVal rest key

/-- `row[key] = v` column assignment, pandas semantics: overwrite the
existing binding in place when the column exists, append a new column
at the end otherwise. -/
def setCol : Row → String → Value → Row
  | [], key, v => [(key, v)]
  | (k, w) :: rest, key, v =>
      if k = key then (key, v) :: rest else (k, w) :: setCol rest key v

/-- The four numeric features `['login_count', 'cpu_usage', 'network_in',
'network_out']` selected by `train` and `detect_anomalies`. -/
structure Features where
  login_count : ℚ
  cpu_usage : ℚ
  network_in : ℚ
  network_out : ℚ
deriving DecidableEq, Repr

/-- Errors of the pipeline: the ad hoc `raise Exception("Model not trained...")`
guard of `detect_anomalies`, and a missing / non-numeric column (pandas
`KeyError`-like failure when a required column is absent). -/
inductive PipelineError where
  | modelNotTrained (msg : String)
  | missingColumn (name : String)
deriving DecidableEq, Repr

/-- Read one numeric column of a row, failing like a pandas column access
when the column is missing or non-numeric. -/
def getNum (row : Row) (key : String) : Except PipelineError ℚ :=
  match lookupVal row key with
  | some (Value.num q) => Except.ok q
  | _ => Except.error (PipelineError.missingColumn key)

/-- Extract the four features of a row, in the order the source selects them. -/
def getFeatures (row : Row) : Except PipelineError Features := do
  let logins ← getNum row "login_count"
  let cpu ← getNum row "cpu_usage"
  let netIn ← getNum row "network_in"
  let netOut ← getNum row "network_out"
  Except.ok ⟨logins, cpu, netIn, netOut⟩

/-- Body of `classify_attack_type` after the four local extractions
`cpu = row['cpu_usage']`, `net_in = row['network_in']`,
`net_out = row['network_out']`, `logins = row['login_count']`:
the ordered ten-rule `if/elif` chain. -/
def classifyCore (cpu netIn netOut logins : ℚ) : String :=
  if netOut > 800 ∧ cpu > 85 then "Data Breach"
  else if logins > 15 ∧ cpu > 80 then "Account Hijacking"
  else if cpu > 95 ∧ netIn > 600 then "Malware Injection"
  else if netIn > 700 ∧ netOut > 700 then "Insecure APIs"
  else if logins > 20 then "Phishing Impact"
  else if netIn > 900 ∨ netOut > 900 then "DoS / DDoS"
  else if cpu > 90 ∧ logins < 5 then "Insider Threats"
  else if logins > 10 ∧ cpu > 75 then "Shared Vulnerabilities"
  else if cpu < 20 ∧ netOut > 500 then "Cloud Misconfiguration"
  else "Unknown Threat"

/-- `classify_attack_type(row)`: extract the four fields, then run the rule
chain. Fails only when a field access fails (pandas `KeyError`). -/
def classify_attack_type (row : Row) : Except PipelineError String := do
  let f ← getFeatures row
  Except.ok (classifyCore f.cpu_usage f.network_in f.network_out f.login_count)

/-- Body of `calculate_risk_level` after the three local extractions
`score = row['anomaly_score']`, `cpu = row['cpu_usage']`,
`net_out = row['network_out']`. -/
def riskCore (score cpu netOut : ℚ) : String :=
  if score < -(3/10 : ℚ) ∨ cpu > 90 ∨ netOut > 800 then "High"
  else if score < -(15/100 : ℚ) ∨ cpu > 70 ∨ netOut > 500 then "Medium"
  else "Low"

/-- `calculate_risk_level(row)`: extract the three fields, then score. -/
def calculate_risk_level (row : Row) : Except PipelineError String := do
  let score ← getNum row "anomaly_score"
  let cpu ← getNum row "cpu_usage"
  let netOut ← getNum row "network_out"
  Except.ok (riskCore score cpu netOut)

/-! ## Spec-side formulation of the rule tables

The specification describes both classifiers as ordered rule tables with
first-match-wins evaluation. These definitions follow the spec's words and are
compared with the `if/elif` chains translated from the source. -/

/-- First-match-wins evaluation of an ordered rule table: the label of the
first rule whose guard holds, or the default. -/
def firstMatch {α : Type} (rules : List ((α → Bool) × String)) (dflt : String) (x : α) : String :=
  match rules with
  | [] => dflt
  | (guard, label) :: rest => if guard x then label else firstMatch rest dflt x

/-- The ordered ten-rule attack table exactly as the spec enumerates it
(rules 1-9; rule 10 is the default "Unknown Threat"). -/
def attackRules : List ((Features → Bool) × String) :=
  [ (fun f => decide (f.network_out > 800) && decide (f.cpu_usage > 85), "Data Breach"),
    (fun f => decide (f.login_count > 15) && decide (f.cpu_usage > 80), "Account Hijacking"),
    (fun f => decide (f.cpu_usage > 95) && decide (f.network_in > 600), "Malware Injection"),
    (fun f => decide (f.network_in > 700) && decide (f.network_out > 700), "Insecure APIs"),
    (fun f => decide (f.login_count > 20), "Phishing Impact"),
    (fun f => decide (f.network_in > 900) || decide (f.network_out > 900), "DoS / DDoS"),
    (fun f => decide (f.cpu_usage > 90) && decide (f.login_count < 5), "Insider Threats"),
    (fun f => decide (f.login_count > 10) && decide (f.cpu_usage > 75), "Shared Vulnerabilities"),
    (fun f => decide (f.cpu_usage < 20) && decide (f.network_out > 500), "Cloud Misconfiguration") ]

/-- The ten enumerated attack categories. -/
def attackLabels : List String :=
  [ "Data Breach", "Account Hijacking", "Malware Injection", "Insecure APIs",
    "Phishing Impact", "DoS / DDoS", "Insider Threats", "Shared Vulnerabilities",
    "Cloud Misconfiguration", "Unknown Threat" ]

/-- The ordered risk table of the spec (rules 1-2; rule 3 is the
default "Low"); the guard reads `(anomaly_score, cpu_usage, network_out)`. -/
def riskRules : List ((ℚ × ℚ × ℚ → Bool) × String) :=
  [ (fun p => decide (p.1 < -(3/10 : ℚ)) || decide (p.2.1 > 90) || decide (p.2.2 > 800), "High"),
    (fun p => decide (p.1 < -(15/100 : ℚ)) || decide (p.2.1 > 70) || decide (p.2.2 > 500), "Medium") ]

/-- The three risk tiers. -/
def riskLabels : List String := ["High", "Medium", "Low"]

end CloudSec

namespace CloudSec

/-! ## Helper lemmas about the classifiers -/

/-- The translated `if/elif` chain of `classify_attack_type` computes exactly
the first-match-wins evaluation of the spec's ordered ten-rule table. -/
lemma classifyCore_eq_firstMatch (f : Features) :
    classifyCore f.cpu_usage f.network_in f.network_out f.login_count =
      firstMatch attackRules "Unknown Threat" f := by
  simp only [attackRules, firstMatch, Bool.and_eq_true, Bool.or_eq_true, decide_eq_true_eq,
    classifyCore]

/-- The rule chain always lands in one of the ten enumerated categories. -/
lemma classifyCore_mem_attackLabels (cpu netIn netOut logins : ℚ) :
    classifyCore cpu netIn netOut logins ∈ attackLabels := by
  unfold classifyCore
  split_ifs <;> simp [attackLabels]

/-- The risk chain computes the first-match-wins evaluation of the spec's
ordered risk table. -/
lemma riskCore_eq_firstMatch (score cpu netOut : ℚ) :
    riskCore score cpu netOut = firstMatch riskRules "Low" (score, cpu, netOut) := by
  simp only [riskRules, firstMatch, Bool.or_eq_true, decide_eq_true_eq, or_assoc, riskCore]

/-- The risk chain always lands in one of the three tiers. -/
lemma riskCore_mem_riskLabels (score cpu netOut : ℚ) :
    riskCore score cpu netOut ∈ riskLabels := by
  unfold riskCore
  split_ifs <;> simp [riskLabels]

/-- Inversion of the feature extraction: a successful `getFeatures` pins the
result of each of the four single-column reads. -/
lemma getFeatures_ok_parts {row : Row} {f : Features} (h : getFeatures row = Except.ok f) :
    getNum row "login_count" = Except.ok f.login_count ∧
    getNum row "cpu_usage" = Except.ok f.cpu_usage ∧
    getNum row "network_in" = Except.ok f.network_in ∧
    getNum row "network_out" = Except.ok f.network_out := by
  unfold getFeatures at h
  simp only [bind, Except.bind] at h
  cases h1 : getNum row "login_count" <;> rw [h1] at h
  · cases h
  · cases h2 : getNum row "cpu_usage" <;> rw [h2] at h
    · cases h
    · cases h3 : getNum row "network_in" <;> rw [h3] at h
      · cases h
      · cases h4 : getNum row "network_out" <;> rw [h4] at h
        · cases h
        · rw [Except.ok.injEq] at h
          subst h
          exact ⟨rfl, rfl, rfl, rfl⟩

/-- A "Data Breach" verdict can only come from the first rule, so its guard
held: `network_out > 800` and `cpu_usage > 85`. -/
lemma classifyCore_data_breach {cpu netIn netOut logins : ℚ}
    (h : classifyCore cpu netIn netOut logins = "Data Breach") :
    netOut > 800 ∧ cpu > 85 := by
  unfold classifyCore at h
  split_ifs at h with h1 <;> first | exact h1 | simp at h

end CloudSec

namespace CloudSec

/-- On a row whose feature extraction succeeds, `classify_attack_type`
returns the rule-chain verdict on the extracted features. -/
lemma classify_attack_type_ok {row : Row} {f : Features} (h : getFeatures row = Except.ok f) :
    classify_attack_type row =
      Except.ok (classifyCore f.cpu_usage f.network_in f.network_out f.login_count) := by
  unfold classify_attack_type
  simp only [bind, Except.bind]
  rw [h]

/-- On a row whose feature extraction fails, `classify_attack_type`
propagates the failure. -/
lemma classify_attack_type_err {row : Row} {e : PipelineError}
    (h : getFeatures row = Except.error e) :
    classify_attack_type row = Except.error e := by
  unfold classify_attack_type
  simp only [bind, Except.bind]
  rw [h]

/-- A successful classification exposes the extracted features. -/
lemma classify_attack_type_ok_inv {row : Row} {s : String}
    (h : classify_attack_type row = Except.ok s) :
    ∃ f, getFeatures row = Except.ok f ∧
      classifyCore f.cpu_usage f.network_in f.network_out f.login_count = s := by
  cases hf : getFeatures row with
  | error e =>
      rw [classify_attack_type_err hf] at h
      cases h
  | ok f =>
      rw [classify_attack_type_ok hf] at h
      injection h with h
      exact ⟨f, rfl, h⟩

/-- On a row whose three reads succeed, `calculate_risk_level` returns the
risk-chain verdict on the extracted values. -/
lemma calculate_risk_level_ok {row : Row} {score cpu netOut : ℚ}
    (hs : getNum row "anomaly_score" = Except.ok score)
    (hc : getNum row "cpu_usage" = Except.ok cpu)
    (hn : getNum row "network_out" = Except.ok netOut) :
    calculate_risk_level row = Except.ok (riskCore score cpu netOut) := by
  unfold calculate_risk_level
  simp only [bind, Except.bind]
  rw [hs, hc, hn]

/-- **C1.** On every input row carrying the four feature fields,
`classify_attack_type` returns exactly the first matching rule of the ordered
ten-rule table (first match wins) and is total: its verdict is always one of
the ten enumerated attack categories. Determinism is inherent: the embedding
is a pure function of the row. -/
theorem classify_is_ordered_first_match_and_total (row : Row) (f : Features)
    (h : getFeatures row = Except.ok f) :
    classify_attack_type row = Except.ok (firstMatch attackRules "Unknown Threat" f) ∧
    firstMatch attackRules "Unknown Threat" f ∈ attackLabels := by
  constructor
  · rw [classify_attack_type_ok h, classifyCore_eq_firstMatch]
  · rw [← classifyCore_eq_firstMatch]
    exact classifyCore_mem_attackLabels _ _ _ _

/-- A generic in-range activity row used to instantiate the classifier theorems. -/
def sampleRow : Row :=
  [("user_id", Value.str "USER_001"), ("login_count", Value.num 3),
   ("cpu_usage", Value.num 50), ("network_in", Value.num 100),
   ("network_out", Value.num 100), ("login_status", Value.str "success")]

/-- Witness for C1 at a concrete row. -/
theorem classify_is_ordered_first_match_and_total_witness :
    classify_attack_type sampleRow =
      Except.ok (firstMatch attackRules "Unknown Threat" ⟨3, 50, 100, 100⟩) ∧
    firstMatch attackRules "Unknown Threat" (⟨3, 50, 100, 100⟩ : Features) ∈ attackLabels :=
  classify_is_ordered_first_match_and_total sampleRow ⟨3, 50, 100, 100⟩ (by rfl)

/-- **C2.** On every input row carrying `anomaly_score`, `cpu_usage` and
`network_out`, `calculate_risk_level` returns exactly the first matching rule
of the ordered risk table — High if `score < -0.3 ∨ cpu > 90 ∨ out > 800`,
else Medium if `score < -0.15 ∨ cpu > 70 ∨ out > 500`, else Low — and is
total: the verdict is always one of the three tiers. -/
theorem risk_is_ordered_first_match_and_total (row : Row) (score cpu netOut : ℚ)
    (hs : getNum row "anomaly_score" = Except.ok score)
    (hc : getNum row "cpu_usage" = Except.ok cpu)
    (hn : getNum row "network_out" = Except.ok netOut) :
    calculate_risk_level row = Except.ok (firstMatch riskRules "Low" (score, cpu, netOut)) ∧
    firstMatch riskRules "Low" (score, cpu, netOut) ∈ riskLabels := by
  constructor
  · rw [calculate_risk_level_ok hs hc hn, riskCore_eq_firstMatch]
  · rw [← riskCore_eq_firstMatch]
    exact riskCore_mem_riskLabels _ _ _

/-- A generic scored row used to instantiate the risk theorem. -/
def sampleScoredRow : Row :=
  sampleRow ++ [("is_anomaly", Value.bool false), ("anomaly_score", Value.num (1/10))]

/-- Witness for C2 at a concrete scored row. -/
theorem risk_is_ordered_first_match_and_total_witness :
    calculate_risk_level sampleScoredRow =
      Except.ok (firstMatch riskRules "Low" (1/10, 50, 100)) ∧
    firstMatch riskRules "Low" ((1:ℚ)/10, (50:ℚ), (100:ℚ)) ∈ riskLabels :=
  risk_is_ordered_first_match_and_total sampleScoredRow (1/10) 50 100
    (by rfl) (by rfl) (by rfl)

end CloudSec

namespace CloudSec

/-- **C3.** Every row with `network_out = 850`, `cpu_usage = 90`,
`login_count = 25` — whatever its `network_in` — classifies as "Data Breach"
(rule 1) and not as "Phishing Impact" (rule 5): rule 1 is checked first, so
first-match-wins resolves the overlap in its favour. -/
theorem rule_precedence_data_breach_over_phishing (row : Row) (netIn : ℚ)
    (h : getFeatures row = Except.ok ⟨25, 90, netIn, 850⟩) :
    classify_attack_type row = Except.ok "Data Breach" ∧
    classify_attack_type row ≠ Except.ok "Phishing Impact" := by
  have hc : classifyCore 90 netIn 850 25 = "Data Breach" := by
    unfold classifyCore
    rw [if_pos (show (850:ℚ) > 800 ∧ (90:ℚ) > 85 by norm_num)]
  have h1 : classify_attack_type row = Except.ok "Data Breach" := by
    rw [classify_attack_type_ok h]
    exact congrArg Except.ok hc
  refine ⟨h1, ?_⟩
  rw [h1]
  simp

/-- Concrete overlap row for the C3 witness: matches both the "Data Breach"
guard and the "Phishing Impact" guard. -/
def overlapRow : Row :=
  [("user_id", Value.str "USER_002"), ("login_count", Value.num 25),
   ("cpu_usage", Value.num 90), ("network_in", Value.num 123),
   ("network_out", Value.num 850), ("login_status", Value.str "failed")]

/-- Witness for C3 at a concrete overlap row. -/
theorem rule_precedence_data_breach_over_phishing_witness :
    classify_attack_type overlapRow = Except.ok "Data Breach" ∧
    classify_attack_type overlapRow ≠ Except.ok "Phishing Impact" :=
  rule_precedence_data_breach_over_phishing overlapRow 123 (by rfl)

/-- The scenario row of the spec: `cpu=15, out=600, in=100, logins=3,
score=0.1`. -/
def scenarioRow : Row :=
  [("user_id", Value.str "USER_003"), ("login_count", Value.num 3),
   ("cpu_usage", Value.num 15), ("network_in", Value.num 100),
   ("network_out", Value.num 600), ("login_status", Value.str "success"),
   ("is_anomaly", Value.bool true), ("anomaly_score", Value.num (1/10))]

/-- **C4.** The spec's scenario row (`cpu=15, out=600, in=100, logins=3,
score=0.1`) classifies as "Cloud Misconfiguration" — rule 9,
`cpu < 20 ∧ out > 500`, is the first to match — and scores risk "Medium":
no High disjunct holds and the Medium disjunct `out > 500` does. -/
theorem scenario_cloud_misconfiguration_medium :
    classify_attack_type scenarioRow = Except.ok "Cloud Misconfiguration" ∧
    calculate_risk_level scenarioRow = Except.ok "Medium" := by
  constructor
  · rfl
  · have hr : riskCore (1/10) 15 600 = "Medium" := by norm_num [riskCore]
    rw [calculate_risk_level_ok
      (show getNum scenarioRow "anomaly_score" = Except.ok (1/10) from rfl)
      (show getNum scenarioRow "cpu_usage" = Except.ok 15 from rfl)
      (show getNum scenarioRow "network_out" = Except.ok 600 from rfl), hr]

/-- **C10.** Whenever `classify_attack_type` returns "Data Breach" on a row
that also carries an `anomaly_score` field, `calculate_risk_level` returns
"High" on that same row: the "Data Breach" guard forces `network_out > 800`,
which is one of the High disjuncts. -/
theorem data_breach_implies_high_risk (row : Row) (score : ℚ)
    (hc : classify_attack_type row = Except.ok "Data Breach")
    (hs : getNum row "anomaly_score" = Except.ok score) :
    calculate_risk_level row = Except.ok "High" := by
  obtain ⟨f, hf, hdb⟩ := classify_attack_type_ok_inv hc
  obtain ⟨-, hcpu, -, hout⟩ := getFeatures_ok_parts hf
  have hno : f.network_out > 800 := (classifyCore_data_breach hdb).1
  have hrisk : riskCore score f.cpu_usage f.network_out = "High" := by
    unfold riskCore
    rw [if_pos (Or.inr (Or.inr hno))]
  rw [calculate_risk_level_ok hs hcpu hout, hrisk]

/-- Concrete scored "Data Breach" row for the C10 witness. -/
def breachRow : Row :=
  [("user_id", Value.str "USER_004"), ("login_count", Value.num 1),
   ("cpu_usage", Value.num 90), ("network_in", Value.num 0),
   ("network_out", Value.num 850), ("login_status", Value.str "failed"),
   ("is_anomaly", Value.bool true), ("anomaly_score", Value.num 0)]

/-- Witness for C10 at a concrete row. -/
theorem data_breach_implies_high_risk_witness :
    calculate_risk_level breachRow = Except.ok "High" :=
  data_breach_implies_high_risk breachRow 0 (by rfl) (by rfl)

end CloudSec

namespace CloudSec

/-! ## The anomaly detector

`CloudSecurityAnomalyDetector` wraps two externally fitted estimators
(`StandardScaler`, `IsolationForest`). The numeric fitting happens inside the
third-party library; the model represents a fitted estimator by its observable
per-row behaviour, which is all `detect_anomalies` consumes. -/

/-- Fitted state of the `StandardScaler`: per-feature centre and scale. -/
structure FittedScaler where
  mean : Features
  scale : Features
deriving Repr

/-- `scaler.transform`: the per-feature affine map `(x - mean) / scale`. -/
def FittedScaler.transform (s : FittedScaler) (x : Features) : Features :=
  ⟨(x.login_count - s.mean.login_count) / s.scale.login_count,
   (x.cpu_usage - s.mean.cpu_usage) / s.scale.cpu_usage,
   (x.network_in - s.mean.network_in) / s.scale.network_in,
   (x.network_out - s.mean.network_out) / s.scale.network_out⟩

/-- The detector state: the contamination parameter, the fitted scaler, the
fitted Isolation Forest as its per-row observable behaviour — `predictRow`
(1 = normal, -1 = anomaly) and `scoreRow` (`score_samples`, lower = more
anomalous) — and the `is_trained` lifecycle flag of the source. -/
structure CloudSecurityAnomalyDetector where
  contamination : ℚ
  scaler : FittedScaler
  predictRow : Features → Int
  scoreRow : Features → ℚ
  is_trained : Bool

/-- `__init__(contamination=0.15)`: a fresh, untrained detector. The
placeholder estimator fields stand for the not-yet-fitted library objects and
are never consulted: `detect_anomalies` checks `is_trained` first. -/
def initDetector (contamination : ℚ) : CloudSecurityAnomalyDetector :=
  { contamination := contamination
    scaler := ⟨⟨0, 0, 0, 0⟩, ⟨1, 1, 1, 1⟩⟩
    predictRow := fun _ => 1
    scoreRow := fun _ => 0
    is_trained := false }

/-- `train(data)`: fit scaler and Isolation Forest on the data (the numeric
fits are external library computations whose results enter as arguments) and
set `is_trained`. -/
def train (d : CloudSecurityAnomalyDetector) (s : FittedScaler)
    (p : Features → Int) (sc : Features → ℚ) : CloudSecurityAnomalyDetector :=
  { d with scaler := s, predictRow := p, scoreRow := sc, is_trained := true }

/-- Fail-fast traversal: first failure aborts, mirroring an exception
escaping the batch operation. -/
def mapExcept {α β : Type} (f : α → Except PipelineError β) :
    List α → Except PipelineError (List β)
  | [] => Except.ok []
  | x :: xs =>
    match f x with
    | Except.error e => Except.error e
    | Except.ok y =>
      match mapExcept f xs with
      | Except.error e => Except.error e
      | Except.ok ys => Except.ok (y :: ys)

/-- Score one row: extract the four features, scale them, run the fitted
model, and assign the two result columns — `result['is_anomaly'] =
(prediction == -1)` and `result['anomaly_score'] = score` — with pandas
column-assignment semantics. -/
def scoreOne (d : CloudSecurityAnomalyDetector) (row : Row) : Except PipelineError Row := do
  let f ← getFeatures row
  let z := d.scaler.transform f
  Except.ok (setCol (setCol row "is_anomaly" (Value.bool (decide (d.predictRow z = -1))))
    "anomaly_score" (Value.num (d.scoreRow z)))

/-- `detect_anomalies(data)`: the untrained guard, then the scored copy of the
frame. The second component is the detector after the call; the method never
assigns to `self`, so it is the input detector itself. -/
def detect_anomalies (d : CloudSecurityAnomalyDetector) (data : Table) :
    Except PipelineError Table × CloudSecurityAnomalyDetector :=
  if d.is_trained then (mapExcept (scoreOne d) data, d)
  else (Except.error (PipelineError.modelNotTrained "Model not trained. Call train() first."), d)

end CloudSec

namespace CloudSec

/-! ## Lemmas about `mapExcept`, `setCol` and `scoreOne` -/

/-- If `f` succeeds on every element, the traversal succeeds. -/
lemma mapExcept_ok_of_all {α β : Type} (f : α → Except PipelineError β) (xs : List α)
    (h : ∀ x ∈ xs, ∃ y, f x = Except.ok y) :
    ∃ ys, mapExcept f xs = Except.ok ys := by
  induction xs with
  | nil => exact ⟨[], rfl⟩
  | cons x xs ih =>
      obtain ⟨y, hy⟩ := h x (List.mem_cons_self x xs)
      obtain ⟨ys, hys⟩ := ih (fun a ha => h a (List.mem_cons_of_mem x ha))
      exact ⟨y :: ys, by unfold mapExcept; rw [hy, hys]⟩

/-- A successful traversal preserves length. -/
lemma mapExcept_ok_length {α β : Type} {f : α → Except PipelineError β}
    {xs : List α} {ys : List β} (h : mapExcept f xs = Except.ok ys) :
    ys.length = xs.length := by
  induction xs generalizing ys with
  | nil => unfold mapExcept at h; cases h; rfl
  | cons x xs ih =>
      unfold mapExcept at h
      cases hx : f x <;> rw [hx] at h
      · cases h
      · cases hxs : mapExcept f xs <;> rw [hxs] at h
        · cases h
        · cases h
          simp [ih hxs]

/-- A successful traversal computes `f` elementwise, position by position. -/
lemma mapExcept_ok_getD {α β : Type} {f : α → Except PipelineError β}
    {xs : List α} {ys : List β} (h : mapExcept f xs = Except.ok ys)
    (a : α) (b : β) :
    ∀ i, i < xs.length → f (xs.getD i a) = Except.ok (ys.getD i b) := by
  induction xs generalizing ys with
  | nil => intro i hi; cases hi
  | cons x xs ih =>
      unfold mapExcept at h
      cases hx : f x <;> rw [hx] at h
      · cases h
      · cases hxs : mapExcept f xs <;> rw [hxs] at h
        · cases h
        · cases h
          intro i hi
          cases i with
          | zero => exact hx
          | succ j => exact ih hxs j (Nat.lt_of_succ_lt_succ hi)

/-- Every output of a successful traversal is the image of some input. -/
lemma mapExcept_ok_mem {α β : Type} {f : α → Except PipelineError β}
    {xs : List α} {ys : List β} (h : mapExcept f xs = Except.ok ys) :
    ∀ y ∈ ys, ∃ x ∈ xs, f x = Except.ok y := by
  induction xs generalizing ys with
  | nil => unfold mapExcept at h; cases h; intro y hy; cases hy
  | cons x xs ih =>
      unfold mapExcept at h
      cases hx : f x <;> rw [hx] at h
      · cases h
      · cases hxs : mapExcept f xs <;> rw [hxs] at h
        · cases h
        · cases h
          intro y hy
          rcases List.mem_cons.mp hy with hy | hy
          · exact ⟨x, List.mem_cons_self x xs, hy ▸ hx⟩
          · obtain ⟨x', hx', hfx'⟩ := ih hxs y hy
            exact ⟨x', List.mem_cons_of_mem x hx', hfx'⟩

/-- Assigning one column leaves every other column's lookup unchanged. -/
lemma lookupVal_setCol_ne (row : Row) (key k : String) (v : Value) (h : k ≠ key) :
    lookupVal (setCol row key v) k = lookupVal row k := by
  induction row with
  | nil =>
      simp only [setCol, lookupVal]
      rw [if_neg (fun hk => h hk.symm)]
  | cons p rest ih =>
      obtain ⟨k', w⟩ := p
      by_cases hk : k' = key
      · subst hk
        simp only [setCol, if_pos rfl, lookupVal]
        rw [if_neg (fun hk => h (hk.symm : k = k')), if_neg (fun hk => h (hk.symm : k = k'))]
      · simp only [setCol, if_neg hk, lookupVal]
        by_cases hkk : k' = k
        · rw [if_pos hkk, if_pos hkk]
        · rw [if_neg hkk, if_neg hkk, ih]

/-- Assigning a column makes its lookup return the assigned value. -/
lemma lookupVal_setCol_self (row : Row) (key : String) (v : Value) :
    lookupVal (setCol row key v) key = some v := by
  induction row with
  | nil => simp [setCol, lookupVal]
  | cons p rest ih =>
      obtain ⟨k', w⟩ := p
      by_cases hk : k' = key
      · subst hk
        simp [setCol, lookupVal]
      · simp only [setCol, if_neg hk, lookupVal]
        exact ih

/-- Forward computation of `scoreOne` on a row with extractable features. -/
lemma scoreOne_ok_of {d : CloudSecurityAnomalyDetector} {row : Row} {f : Features}
    (h : getFeatures row = Except.ok f) :
    scoreOne d row = Except.ok
      (setCol (setCol row "is_anomaly"
          (Value.bool (decide (d.predictRow (d.scaler.transform f) = -1))))
        "anomaly_score" (Value.num (d.scoreRow (d.scaler.transform f)))) := by
  unfold scoreOne
  simp only [bind, Except.bind]
  rw [h]

/-- Inversion of a successful `scoreOne`. -/
lemma scoreOne_ok_inv {d : CloudSecurityAnomalyDetector} {row row' : Row}
    (h : scoreOne d row = Except.ok row') :
    ∃ f, getFeatures row = Except.ok f ∧
      row' = setCol (setCol row "is_anomaly"
          (Value.bool (decide (d.predictRow (d.scaler.transform f) = -1))))
        "anomaly_score" (Value.num (d.scoreRow (d.scaler.transform f))) := by
  cases hf : getFeatures row with
  | error e =>
      unfold scoreOne at h
      simp only [bind, Except.bind] at h
      rw [hf] at h
      cases h
  | ok f =>
      rw [scoreOne_ok_of hf] at h
      injection h with h
      exact ⟨f, rfl, h.symm⟩

end CloudSec

namespace CloudSec

/-- **C5.** `detect_anomalies` on a detector on which `train` was never called
— a detector as produced by `__init__`, whose `is_trained` flag is still
false — always fails with the untrained-model error carrying the source's
message, for every contamination parameter and every input table, and the
failed call leaves the detector state unchanged. -/
theorem detect_untrained_always_fails (c : ℚ) (data : Table) :
    (detect_anomalies (initDetector c) data).1 =
      Except.error (PipelineError.modelNotTrained "Model not trained. Call train() first.") ∧
    (detect_anomalies (initDetector c) data).2 = initDetector c :=
  ⟨rfl, rfl⟩

/-- A concrete trained detector used by counterexamples and witnesses:
identity scaling, a fitted model that flags nothing (`predict = 1`) and
scores everything 0. -/
def demoDetector : CloudSecurityAnomalyDetector :=
  train (initDetector (3/20)) ⟨⟨0, 0, 0, 0⟩, ⟨1, 1, 1, 1⟩⟩ (fun _ => 1) (fun _ => 0)

/-- A row that already carries an `is_anomaly` column before scoring. -/
def preFlaggedRow : Row :=
  [("login_count", Value.num 1), ("cpu_usage", Value.num 1),
   ("network_in", Value.num 1), ("network_out", Value.num 1),
   ("is_anomaly", Value.bool true)]

/-- **C9 counterexample.** The claim says every pre-existing column and value
of an accepted input survives unchanged and the result adds two *new*
columns. A trained detector accepts a table whose rows already carry an
`is_anomaly` column, and `result['is_anomaly'] = ...` overwrites it: here
the pre-existing value `true` becomes `false` in the result, so the claim
fails at this concrete input. -/
theorem detect_overwrites_preexisting_flag :
    (detect_anomalies demoDetector [preFlaggedRow]).1 =
      Except.ok [[("login_count", Value.num 1), ("cpu_usage", Value.num 1),
        ("network_in", Value.num 1), ("network_out", Value.num 1),
        ("is_anomaly", Value.bool false), ("anomaly_score", Value.num 0)]] ∧
    lookupVal preFlaggedRow "is_anomaly" = some (Value.bool true) ∧
    Value.bool true ≠ Value.bool false :=
  ⟨rfl, rfl, by decide⟩

/-- **C9 amended.** For every trained detector and every input table all of
whose rows carry the four numeric feature columns, `detect_anomalies`
succeeds and returns one output row per input row, in order, where each
output row is its input row with `is_anomaly` and `anomaly_score` assigned
(appended when absent, overwritten when already present — pandas
column-assignment semantics). Every pre-existing column other than those two
keeps its value at its key. The input table itself is unmodified: the source
assigns only into `data.copy()`, and the embedding is a pure function of the
input. -/
theorem detect_extends_rows_preserving_other_columns
    (d : CloudSecurityAnomalyDetector) (data : Table)
    (hd : d.is_trained = true)
    (hf : ∀ row ∈ data, ∃ f, getFeatures row = Except.ok f) :
    ∃ results, (detect_anomalies d data).1 = Except.ok results ∧
      results.length = data.length ∧
      (∀ i, i < data.length → ∃ f, getFeatures (data.getD i []) = Except.ok f ∧
        results.getD i [] =
          setCol (setCol (data.getD i []) "is_anomaly"
              (Value.bool (decide (d.predictRow (d.scaler.transform f) = -1))))
            "anomaly_score" (Value.num (d.scoreRow (d.scaler.transform f)))) ∧
      (∀ i, i < data.length → ∀ k, k ≠ "is_anomaly" → k ≠ "anomaly_score" →
        lookupVal (results.getD i []) k = lookupVal (data.getD i []) k) := by
  obtain ⟨results, hres⟩ :=
    mapExcept_ok_of_all (scoreOne d) data (by
      intro row hr
      obtain ⟨f, hfr⟩ := hf row hr
      exact ⟨_, scoreOne_ok_of hfr⟩)
  have hdet : (detect_anomalies d data).1 = Except.ok results := by
    unfold detect_anomalies
    rw [hd]
    simpa using hres
  have hgetD := mapExcept_ok_getD hres ([] : Row) ([] : Row)
  have hshape : ∀ i, i < data.length → ∃ f, getFeatures (data.getD i []) = Except.ok f ∧
      results.getD i [] =
        setCol (setCol (data.getD i []) "is_anomaly"
            (Value.bool (decide (d.predictRow (d.scaler.transform f) = -1))))
          "anomaly_score" (Value.num (d.scoreRow (d.scaler.transform f))) := by
    intro i hi
    exact scoreOne_ok_inv (hgetD i hi)
  refine ⟨results, hdet, mapExcept_ok_length hres, hshape, ?_⟩
  intro i hi k hk1 hk2
  obtain ⟨f, -, hrow⟩ := hshape i hi
  rw [hrow, lookupVal_setCol_ne _ _ _ _ hk2, lookupVal_setCol_ne _ _ _ _ hk1]

/-- Witness for the amended C9 at a concrete trained detector and one-row
table. -/
theorem detect_extends_rows_preserving_other_columns_witness :
    ∃ results, (detect_anomalies demoDetector [sampleRow]).1 = Except.ok results ∧
      results.length = [sampleRow].length ∧
      (∀ i, i < [sampleRow].length → ∃ f, getFeatures ([sampleRow].getD i []) = Except.ok f ∧
        results.getD i [] =
          setCol (setCol ([sampleRow].getD i []) "is_anomaly"
              (Value.bool (decide (demoDetector.predictRow (demoDetector.scaler.transform f) = -1))))
            "anomaly_score" (Value.num (demoDetector.scoreRow (demoDetector.scaler.transform f)))) ∧
      (∀ i, i < [sampleRow].length → ∀ k, k ≠ "is_anomaly" → k ≠ "anomaly_score" →
        lookupVal (results.getD i []) k = lookupVal ([sampleRow].getD i []) k) :=
  detect_extends_rows_preserving_other_columns demoDetector [sampleRow] rfl (by
    intro row hr
    rw [List.mem_singleton] at hr
    subst hr
    exact ⟨⟨3, 50, 100, 100⟩, rfl⟩)

end CloudSec

namespace CloudSec

/-! ## The data generator

`generate_sample_data` draws from numpy's global RNG after reseeding it with
the fixed literal 42. The model threads an explicit RNG state. The concrete
pseudo-random stream (a linear congruential generator) is a model of the
library's generator: no claim depends on the exact drawn values, only on the
reseeding, the block sizes, the draw ranges, and the shuffle structure. -/

/-- Global RNG state. -/
structure RngState where
  word : Nat
deriving DecidableEq, Repr

/-- `np.random.seed(s)`: reset the global stream to a function of `s` alone,
discarding whatever state was there before. -/
def seedRng (s : Nat) : RngState := ⟨(2 * s + 1) % 4294967296⟩

/-- One 32-bit draw from the stream (linear congruential step). -/
def nextNat (g : RngState) : Nat × RngState :=
  let x := (g.word * 1664525 + 1013904223) % 4294967296
  (x, ⟨x⟩)

/-- `np.random.randint(lo, hi, n)`: `n` integers in `[lo, hi)`. -/
def randintList (lo hi : Nat) : Nat → RngState → List Nat × RngState
  | 0, g => ([], g)
  | n + 1, g =>
    let d := nextNat g
    let rest := randintList lo hi n d.2
    ((lo + d.1 % (hi - lo)) :: rest.1, rest.2)

/-- `np.random.uniform(lo, hi, n)`: `n` rationals in `[lo, hi)`. -/
def uniformList (lo hi : ℚ) : Nat → RngState → List ℚ × RngState
  | 0, g => ([], g)
  | n + 1, g =>
    let d := nextNat g
    let rest := uniformList lo hi n d.2
    ((lo + (hi - lo) * ((d.1 : ℚ) / 4294967296)) :: rest.1, rest.2)

/-- `np.random.choice(opts, n)`: `n` draws from the option list. -/
def choiceList (opts : List String) : Nat → RngState → List String × RngState
  | 0, g => ([], g)
  | n + 1, g =>
    let d := nextNat g
    let rest := choiceList opts n d.2
    (opts.getD (d.1 % opts.length) "" :: rest.1, rest.2)

/-- `f"USER_{str(i).zfill(3)}"`. -/
def userId (i : Nat) : String :=
  let s := toString i
  "USER_" ++ String.mk (List.replicate (3 - s.length) '0') ++ s

/-- `user_ids = [f"USER_{str(i).zfill(3)}" for i in range(1, num_records + 1)]`. -/
def userIds (n : Nat) : List String := (List.range n).map (fun i => userId (i + 1))

/-- One Activity Record in the generated column order. -/
def activityRow (uid : String) (logins : Nat) (cpu netIn netOut : ℚ) (status : String) : Row :=
  [("user_id", Value.str uid), ("login_count", Value.num (logins : ℚ)),
   ("cpu_usage", Value.num cpu), ("network_in", Value.num netIn),
   ("network_out", Value.num netOut), ("login_status", Value.str status)]

/-- Zip the six generated columns into rows, as the columnwise dataframe
construction does. -/
def buildRows : List String → List Nat → List ℚ → List ℚ → List ℚ → List String → List Row
  | uid :: us, l :: ls, c :: cs, ni :: ns, no :: os, st :: ss =>
      activityRow uid l c ni no st :: buildRows us ls cs ns os ss
  | _, _, _, _, _, _ => []

/-- The two generation blocks of `generate_sample_data` after
`np.random.seed(seed)` (the source fixes the literal 42): the "normal" block
of `normal_count = int(num_records * 0.80)` rows and the "anomalous" block of
the remaining rows, in generation order, with the draws threaded in source
order; the second component is the global RNG state after all draws.
`int(n * 0.80)` is `⌊0.8·n⌋ = n * 4 / 5` in exact arithmetic. -/
def generateParts (seed n : Nat) : (List Row × List Row) × RngState :=
  let g0 := seedRng seed
  let ids := userIds n
  let nc := n * 4 / 5
  let r1 := randintList 1 8 nc g0
  let r2 := uniformList 20 65 nc r1.2
  let r3 := uniformList 50 300 nc r2.2
  let r4 := uniformList 50 300 nc r3.2
  let r5 := choiceList ["success", "success", "success", "failed"] nc r4.2
  let ac := n - nc
  let r6 := randintList 8 25 ac r5.2
  let r7 := uniformList 70 99 ac r6.2
  let r8 := uniformList 400 950 ac r7.2
  let r9 := uniformList 400 950 ac r8.2
  let r10 := choiceList ["success", "failed", "failed"] ac r9.2
  ((buildRows (ids.take nc) r1.1 r2.1 r3.1 r4.1 r5.1,
    buildRows (ids.drop nc) r6.1 r7.1 r8.1 r9.1 r10.1), r10.2)

/-- Fisher-Yates-style seed-driven permutation, fuelled by the list length. -/
def shuffleGo {α : Type} : Nat → RngState → List α → List α
  | 0, _, _ => []
  | fuel + 1, g, xs =>
    if h : 0 < xs.length then
      let d := nextNat g
      xs.get ⟨d.1 % xs.length, Nat.mod_lt d.1 h⟩ ::
        shuffleGo fuel d.2 (xs.eraseIdx (d.1 % xs.length))
    else []

/-- `df.sample(frac=1, random_state=42).reset_index(drop=True)`: a permutation
of the rows determined by the given seed alone (the source passes the
literal 42), independent of the global RNG state. -/
def shuffleSeeded {α : Type} (seed : Nat) (xs : List α) : List α :=
  shuffleGo xs.length (seedRng seed) xs

/-- `.round(2)`: round to 2 decimal places (exact-arithmetic model of the
float rounding; tie-breaking is immaterial to every claim). -/
def round2 (q : ℚ) : ℚ := ((q * 100 + 1 / 2).floor : ℚ) / 100

/-- `df[name] = df[name].round(2)` as a per-row operation. -/
def roundColRow (name : String) (r : Row) : Row :=
  match lookupVal r name with
  | some (Value.num q) => setCol r name (Value.num (round2 q))
  | _ => r

/-- The three rounding assignments of the source, in order: `cpu_usage`,
`network_in`, `network_out`. -/
def roundRow (r : Row) : Row :=
  roundColRow "network_out" (roundColRow "network_in" (roundColRow "cpu_usage" r))

/-- The generated table for a given reseed value: concatenate the two blocks,
shuffle with the fixed `random_state=42`, then round the three float
columns. -/
def generateTable (seed n : Nat) : Table :=
  (shuffleSeeded 42 ((generateParts seed n).1.1 ++ (generateParts seed n).1.2)).map roundRow

/-- `generate_sample_data` with the reseed literal generalised: invoked at an
ambient global RNG state `g`, which `np.random.seed` immediately discards;
returns the table and the global state after the draws. -/
def generateSeededGlobal (seed n : Nat) (g : RngState) : Table × RngState :=
  (generateTable seed n, (generateParts seed n).2)

/-- `generate_sample_data(num_records)`: the source, with its hard-coded
`np.random.seed(42)`. -/
def generate_sample_data (num_records : Nat) (g : RngState) : Table × RngState :=
  generateSeededGlobal 42 num_records g

end CloudSec

namespace CloudSec

/-! ## Lemmas about the generator -/

/-- Every raw draw is below the 32-bit modulus. -/
lemma nextNat_lt (g : RngState) : (nextNat g).1 < 4294967296 :=
  Nat.mod_lt _ (by norm_num)

/-- `randint` returns exactly `n` values. -/
lemma randintList_length (lo hi n : Nat) (g : RngState) :
    ((randintList lo hi n g).1).length = n := by
  induction n generalizing g with
  | zero => rfl
  | succ m ih => simp [randintList, ih]

/-- `uniform` returns exactly `n` values. -/
lemma uniformList_length (lo hi : ℚ) (n : Nat) (g : RngState) :
    ((uniformList lo hi n g).1).length = n := by
  induction n generalizing g with
  | zero => rfl
  | succ m ih => simp [uniformList, ih]

/-- `choice` returns exactly `n` values. -/
lemma choiceList_length (opts : List String) (n : Nat) (g : RngState) :
    ((choiceList opts n g).1).length = n := by
  induction n generalizing g with
  | zero => rfl
  | succ m ih => simp [choiceList, ih]

/-- Every `randint(lo, hi)` draw lies in `[lo, hi)`. -/
lemma randintList_mem {lo hi : Nat} (hlo : lo < hi) (n : Nat) (g : RngState) :
    ∀ x ∈ (randintList lo hi n g).1, lo ≤ x ∧ x < hi := by
  induction n generalizing g with
  | zero => intro x hx; cases hx
  | succ m ih =>
      intro x hx
      simp only [randintList] at hx
      rcases List.mem_cons.mp hx with hx | hx
      · have hmod : (nextNat g).1 % (hi - lo) < hi - lo := Nat.mod_lt _ (by omega)
        omega
      · exact ih _ x hx

/-- Every `uniform(lo, hi)` draw lies in `[lo, hi)`. -/
lemma uniformList_mem {lo hi : ℚ} (hlo : lo < hi) (n : Nat) (g : RngState) :
    ∀ x ∈ (uniformList lo hi n g).1, lo ≤ x ∧ x < hi := by
  induction n generalizing g with
  | zero => intro x hx; cases hx
  | succ m ih =>
      intro x hx
      simp only [uniformList] at hx
      rcases List.mem_cons.mp hx with hx | hx
      · subst hx
        have h0 : (0 : ℚ) ≤ ((nextNat g).1 : ℚ) / 4294967296 := by positivity
        have h1 : ((nextNat g).1 : ℚ) / 4294967296 < 1 := by
          rw [div_lt_one (by norm_num)]
          exact_mod_cast nextNat_lt g
        constructor
        · nlinarith
        · nlinarith
      · exact ih _ x hx

/-- `buildRows` zips six equal-length columns into that many rows. -/
lemma buildRows_length : ∀ (us : List String) (ls : List Nat) (cs ns os : List ℚ)
    (ss : List String),
    ls.length = us.length → cs.length = us.length → ns.length = us.length →
    os.length = us.length → ss.length = us.length →
    (buildRows us ls cs ns os ss).length = us.length := by
  intro us
  induction us with
  | nil =>
      intro ls cs ns os ss h1 h2 h3 h4 h5
      rw [List.length_eq_zero.mp h1, List.length_eq_zero.mp h2, List.length_eq_zero.mp h3,
        List.length_eq_zero.mp h4, List.length_eq_zero.mp h5]
      rfl
  | cons u us ih =>
      intro ls cs ns os ss h1 h2 h3 h4 h5
      rcases ls with _ | ⟨l, ls⟩
      · simp at h1
      rcases cs with _ | ⟨c, cs⟩
      · simp at h2
      rcases ns with _ | ⟨ni, ns⟩
      · simp at h3
      rcases os with _ | ⟨no, os⟩
      · simp at h4
      rcases ss with _ | ⟨st, ss⟩
      · simp at h5
      simp only [buildRows, List.length_cons] at h1 h2 h3 h4 h5 ⊢
      rw [ih ls cs ns os ss (by omega) (by omega) (by omega) (by omega) (by omega)]

/-- Every row `buildRows` produces is an `activityRow` of members of the six
column lists. -/
lemma buildRows_mem : ∀ (us : List String) (ls : List Nat) (cs ns os : List ℚ)
    (ss : List String) (r : Row), r ∈ buildRows us ls cs ns os ss →
    ∃ uid l c ni no st, uid ∈ us ∧ l ∈ ls ∧ c ∈ cs ∧ ni ∈ ns ∧ no ∈ os ∧ st ∈ ss ∧
      r = activityRow uid l c ni no st := by
  intro us
  induction us with
  | nil =>
      intro ls cs ns os ss r hr
      simp [buildRows] at hr
  | cons u us ih =>
      intro ls cs ns os ss r hr
      rcases ls with _ | ⟨l, ls⟩
      · simp [buildRows] at hr
      rcases cs with _ | ⟨c, cs⟩
      · simp [buildRows] at hr
      rcases ns with _ | ⟨ni, ns⟩
      · simp [buildRows] at hr
      rcases os with _ | ⟨no, os⟩
      · simp [buildRows] at hr
      rcases ss with _ | ⟨st, ss⟩
      · simp [buildRows] at hr
      simp only [buildRows] at hr
      rcases List.mem_cons.mp hr with hr | hr
      · exact ⟨u, l, c, ni, no, st, List.mem_cons_self _ _, List.mem_cons_self _ _,
          List.mem_cons_self _ _, List.mem_cons_self _ _, List.mem_cons_self _ _,
          List.mem_cons_self _ _, hr⟩
      · obtain ⟨uid, a, b, d, e, f, m1, m2, m3, m4, m5, m6, h7⟩ := ih ls cs ns os ss r hr
        exact ⟨uid, a, b, d, e, f, List.mem_cons_of_mem _ m1, List.mem_cons_of_mem _ m2,
          List.mem_cons_of_mem _ m3, List.mem_cons_of_mem _ m4, List.mem_cons_of_mem _ m5,
          List.mem_cons_of_mem _ m6, h7⟩

/-- The fuelled shuffle is length-preserving when fuelled by the length. -/
lemma shuffleGo_length {α : Type} : ∀ (fuel : Nat) (g : RngState) (xs : List α),
    fuel = xs.length → (shuffleGo fuel g xs).length = xs.length := by
  intro fuel
  induction fuel with
  | zero =>
      intro g xs h
      simpa [shuffleGo] using h
  | succ m ih =>
      intro g xs h
      have hpos : 0 < xs.length := by omega
      simp only [shuffleGo, dif_pos hpos]
      have hlen : (xs.eraseIdx ((nextNat g).1 % xs.length)).length = xs.length - 1 := by
        rw [List.length_eraseIdx, if_pos (Nat.mod_lt _ hpos)]
      rw [List.length_cons, ih _ _ (by omega), hlen]
      omega

/-- Everything the shuffle emits came from the input list. -/
lemma shuffleGo_subset {α : Type} : ∀ (fuel : Nat) (g : RngState) (xs : List α),
    ∀ a ∈ shuffleGo fuel g xs, a ∈ xs := by
  intro fuel
  induction fuel with
  | zero =>
      intro g xs a ha
      simp [shuffleGo] at ha
  | succ m ih =>
      intro g xs a ha
      by_cases hpos : 0 < xs.length
      · simp only [shuffleGo, dif_pos hpos] at ha
        rcases List.mem_cons.mp ha with ha | ha
        · subst ha
          exact xs.get_mem _ _
        · exact (List.eraseIdx_sublist xs _).subset (ih _ _ a ha)
      · simp only [shuffleGo, dif_neg hpos] at ha
        cases ha

/-- The seeded shuffle preserves length. -/
lemma shuffleSeeded_length {α : Type} (s : Nat) (xs : List α) :
    (shuffleSeeded s xs).length = xs.length :=
  shuffleGo_length _ _ _ rfl

/-- The seeded shuffle only reorders input elements. -/
lemma shuffleSeeded_subset {α : Type} (s : Nat) (xs : List α) :
    ∀ a ∈ shuffleSeeded s xs, a ∈ xs :=
  shuffleGo_subset _ _ _

/-- `user_ids` has one id per record. -/
lemma userIds_length (n : Nat) : (userIds n).length = n := by
  simp [userIds]

end CloudSec

namespace CloudSec

/-- The normal block has exactly `int(n * 0.80) = n * 4 / 5` rows. -/
lemma generateParts_normal_length (seed n : Nat) :
    (generateParts seed n).1.1.length = n * 4 / 5 := by
  unfold generateParts
  rw [buildRows_length] <;>
    simp only [randintList_length, uniformList_length, choiceList_length,
      List.length_take, userIds_length] <;> omega

/-- The anomalous block has exactly the remaining `n - n * 4 / 5` rows. -/
lemma generateParts_anomaly_length (seed n : Nat) :
    (generateParts seed n).1.2.length = n - n * 4 / 5 := by
  unfold generateParts
  rw [buildRows_length] <;>
    simp only [randintList_length, uniformList_length, choiceList_length,
      List.length_drop, userIds_length] <;> omega

/-- The generated table always has exactly `n` rows. -/
lemma generateTable_length (seed n : Nat) : (generateTable seed n).length = n := by
  unfold generateTable
  rw [List.length_map, shuffleSeeded_length, List.length_append,
    generateParts_normal_length, generateParts_anomaly_length]
  omega

/-- Every normal-block row is an activity row whose numeric fields were drawn
from the normal-pattern ranges. -/
lemma generateParts_normal_mem (seed n : Nat) :
    ∀ r ∈ (generateParts seed n).1.1, ∃ (uid : String) (l : Nat) (c ni no : ℚ) (st : String),
      r = activityRow uid l c ni no st ∧
      1 ≤ l ∧ l < 8 ∧ 20 ≤ c ∧ c < 65 ∧ 50 ≤ ni ∧ ni < 300 ∧ 50 ≤ no ∧ no < 300 := by
  intro r hr
  unfold generateParts at hr
  obtain ⟨uid, l, c, ni, no, st, hu, hl, hc, hni, hno, hst, heq⟩ :=
    buildRows_mem _ _ _ _ _ _ r hr
  obtain ⟨hl1, hl2⟩ := randintList_mem (by norm_num) _ _ l hl
  obtain ⟨hc1, hc2⟩ := uniformList_mem (by norm_num) _ _ c hc
  obtain ⟨hni1, hni2⟩ := uniformList_mem (by norm_num) _ _ ni hni
  obtain ⟨hno1, hno2⟩ := uniformList_mem (by norm_num) _ _ no hno
  exact ⟨uid, l, c, ni, no, st, heq, hl1, hl2, hc1, hc2, hni1, hni2, hno1, hno2⟩

/-- Every anomalous-block row is an activity row whose numeric fields were
drawn from the anomalous-pattern ranges. -/
lemma generateParts_anomaly_mem (seed n : Nat) :
    ∀ r ∈ (generateParts seed n).1.2, ∃ (uid : String) (l : Nat) (c ni no : ℚ) (st : String),
      r = activityRow uid l c ni no st ∧
      8 ≤ l ∧ l < 25 ∧ 70 ≤ c ∧ c < 99 ∧ 400 ≤ ni ∧ ni < 950 ∧ 400 ≤ no ∧ no < 950 := by
  intro r hr
  unfold generateParts at hr
  obtain ⟨uid, l, c, ni, no, st, hu, hl, hc, hni, hno, hst, heq⟩ :=
    buildRows_mem _ _ _ _ _ _ r hr
  obtain ⟨hl1, hl2⟩ := randintList_mem (by norm_num) _ _ l hl
  obtain ⟨hc1, hc2⟩ := uniformList_mem (by norm_num) _ _ c hc
  obtain ⟨hni1, hni2⟩ := uniformList_mem (by norm_num) _ _ ni hni
  obtain ⟨hno1, hno2⟩ := uniformList_mem (by norm_num) _ _ no hno
  exact ⟨uid, l, c, ni, no, st, heq, hl1, hl2, hc1, hc2, hni1, hni2, hno1, hno2⟩

/-- **C6.** `generate(N, seed)` is deterministic: invoked from any two ambient
global RNG states — the only implicit input a caller could vary — it returns
identical tables, because `np.random.seed(seed)` discards the ambient state
first; and the returned row order is exactly the seed-42 shuffle
(`df.sample(frac=1, random_state=42)`) applied to the generation-order
concatenation of the two blocks, so record order is seed-determined and
decoupled from generation order. -/
theorem generate_deterministic_and_seed_shuffled (seed n : Nat) (g h : RngState) :
    (generateSeededGlobal seed n g).1 = (generateSeededGlobal seed n h).1 ∧
    (generate_sample_data n g).1 =
      (shuffleSeeded 42 ((generateParts 42 n).1.1 ++ (generateParts 42 n).1.2)).map roundRow :=
  ⟨rfl, rfl⟩

/-- **C7.** For every `n`, the generated table has exactly `n` rows; the
normal-pattern block contributes exactly `int(n * 0.80) = ⌊0.8·n⌋` rows, each
drawn from the normal ranges (`login_count ∈ [1,8)`, `cpu ∈ [20,65)`,
`net_in/out ∈ [50,300)`), and the anomalous-pattern block the remaining
`n − ⌊0.8·n⌋` rows, drawn from the anomalous ranges (`login_count ∈ [8,25)`,
`cpu ∈ [70,99)`, `net_in/out ∈ [400,950)`); the table is the seeded shuffle
of exactly these rows (then rounded). -/
theorem generate_counts_match_contract (seed n : Nat) :
    (generateTable seed n).length = n ∧
    (generateParts seed n).1.1.length = n * 4 / 5 ∧
    (generateParts seed n).1.2.length = n - n * 4 / 5 ∧
    generateTable seed n =
      (shuffleSeeded 42 ((generateParts seed n).1.1 ++ (generateParts seed n).1.2)).map roundRow ∧
    (∀ r ∈ (generateParts seed n).1.1, ∃ (uid : String) (l : Nat) (c ni no : ℚ) (st : String),
      r = activityRow uid l c ni no st ∧
      1 ≤ l ∧ l < 8 ∧ 20 ≤ c ∧ c < 65 ∧ 50 ≤ ni ∧ ni < 300 ∧ 50 ≤ no ∧ no < 300) ∧
    (∀ r ∈ (generateParts seed n).1.2, ∃ (uid : String) (l : Nat) (c ni no : ℚ) (st : String),
      r = activityRow uid l c ni no st ∧
      8 ≤ l ∧ l < 25 ∧ 70 ≤ c ∧ c < 99 ∧ 400 ≤ ni ∧ ni < 950 ∧ 400 ≤ no ∧ no < 950) :=
  ⟨generateTable_length seed n, generateParts_normal_length seed n,
    generateParts_anomaly_length seed n, rfl,
    generateParts_normal_mem seed n, generateParts_anomaly_mem seed n⟩

end CloudSec

namespace CloudSec

/-! ## The threat-building portion of `main` -/

/-- `row[key]` as a value of any type (pandas `KeyError` when absent). -/
def getVal (row : Row) (key : String) : Except PipelineError Value :=
  match lookupVal row key with
  | some v => Except.ok v
  | none => Except.error (PipelineError.missingColumn key)

/-- The filter `results[results['is_anomaly'] == True]` as a row predicate. -/
def isFlagged (row : Row) : Bool :=
  match lookupVal row "is_anomaly" with
  | some (Value.bool b) => b
  | _ => false

/-- The body of `main`'s classification loop for one anomalous row: classify,
score the risk, and collect the six fields of a Threat Record in source
order. -/
def mkThreat (row : Row) : Except PipelineError Row := do
  let attack ← classify_attack_type row
  let risk ← calculate_risk_level row
  let u ← getVal row "user_id"
  let c ← getVal row "cpu_usage"
  let no ← getVal row "network_out"
  let s ← getVal row "anomaly_score"
  Except.ok [("user_id", u), ("attack_type", Value.str attack),
    ("risk_level", Value.str risk), ("cpu_usage", c), ("network_out", no),
    ("anomaly_score", s)]

/-- An activity row after scoring: the original columns with the two result
columns appended. -/
def scoredRow (uid : String) (l : Nat) (c ni no : ℚ) (st : String) (b : Bool) (q : ℚ) : Row :=
  activityRow uid l c ni no st ++
    [("is_anomaly", Value.bool b), ("anomaly_score", Value.num q)]

/-- The data-generation / training / scoring / classification pipeline of
`main` (the CSV writes and console prints are I/O external to the model):
generate 200 records, train with `contamination=0.20` (the numeric fits are
external library results entering as arguments), score the same table,
filter the flagged rows, and build one Threat Record per flagged row. -/
def mainThreats (g : RngState) (s : FittedScaler) (p : Features → Int)
    (sc : Features → ℚ) : Except PipelineError (Table × Table) := do
  let cloud_data := (generate_sample_data 200 g).1
  let detector := train (initDetector (1/5)) s p sc
  let results ← (detect_anomalies detector cloud_data).1
  let threats ← mapExcept mkThreat (results.filter isFlagged)
  Except.ok (cloud_data, threats)

/-- Rounding the three float columns of an activity row rounds exactly those
three fields in place. -/
lemma roundRow_activityRow (uid : String) (l : Nat) (c ni no : ℚ) (st : String) :
    roundRow (activityRow uid l c ni no st) =
      activityRow uid l (round2 c) (round2 ni) (round2 no) st := rfl

/-- Feature extraction on an activity row reads the four generated fields. -/
lemma getFeatures_activityRow (uid : String) (l : Nat) (c ni no : ℚ) (st : String) :
    getFeatures (activityRow uid l c ni no st) = Except.ok ⟨(l : ℚ), c, ni, no⟩ := rfl

/-- Scoring an activity row appends the two result columns. -/
lemma scoreOne_activityRow (d : CloudSecurityAnomalyDetector) (uid : String) (l : Nat)
    (c ni no : ℚ) (st : String) :
    scoreOne d (activityRow uid l c ni no st) =
      Except.ok (scoredRow uid l c ni no st
        (decide (d.predictRow (d.scaler.transform ⟨(l : ℚ), c, ni, no⟩) = -1))
        (d.scoreRow (d.scaler.transform ⟨(l : ℚ), c, ni, no⟩))) := rfl

/-- Building the threat record of a scored activity row. -/
lemma mkThreat_scoredRow (uid : String) (l : Nat) (c ni no : ℚ) (st : String)
    (b : Bool) (q : ℚ) :
    mkThreat (scoredRow uid l c ni no st b q) =
      Except.ok [("user_id", Value.str uid),
        ("attack_type", Value.str (classifyCore c ni no (l : ℚ))),
        ("risk_level", Value.str (riskCore q c no)),
        ("cpu_usage", Value.num c), ("network_out", Value.num no),
        ("anomaly_score", Value.num q)] := rfl

end CloudSec

namespace CloudSec

/-- An in-range index of `getD` lands in the list. -/
lemma getD_mem {α : Type} (l : List α) (i : Nat) (d : α) (h : i < l.length) :
    l.getD i d ∈ l := by
  rw [List.getD_eq_getElem l d h]
  exact List.getElem_mem h

/-- Every row of the generated table is an activity row. -/
lemma generateTable_row_shape (seed n : Nat) :
    ∀ r ∈ generateTable seed n, ∃ (uid : String) (l : Nat) (c ni no : ℚ) (st : String),
      r = activityRow uid l c ni no st := by
  intro r hr
  unfold generateTable at hr
  obtain ⟨r', hr', hmap⟩ := List.mem_map.mp hr
  have hr'' := shuffleSeeded_subset _ _ r' hr'
  rcases List.mem_append.mp hr'' with hp | hp
  · obtain ⟨uid, l, c, ni, no, st, heq, -⟩ := generateParts_normal_mem seed n r' hp
    exact ⟨uid, l, round2 c, round2 ni, round2 no, st, by
      rw [← hmap, heq, roundRow_activityRow]⟩
  · obtain ⟨uid, l, c, ni, no, st, heq, -⟩ := generateParts_anomaly_mem seed n r' hp
    exact ⟨uid, l, round2 c, round2 ni, round2 no, st, by
      rw [← hmap, heq, roundRow_activityRow]⟩

/-- The `user_id` column of a scored activity row. -/
lemma lookupVal_scoredRow_user (uid : String) (l : Nat) (c ni no : ℚ) (st : String)
    (b : Bool) (q : ℚ) :
    lookupVal (scoredRow uid l c ni no st b q) "user_id" = some (Value.str uid) := rfl

/-- **C8.** In every run of `main`'s pipeline — for any ambient RNG state and
any externally fitted scaler and Isolation Forest — the pipeline succeeds, and
a Threat Record is created exactly for the scored rows with
`is_anomaly = true`: the threat list has one entry per flagged scored row,
in order, carrying that row's `user_id`; consequently every Threat Record's
`user_id` equals the `user_id` of some Activity Record of the generated
table (referential integrity by construction). -/
theorem main_threats_flagged_rows_and_referential_integrity
    (g : RngState) (s : FittedScaler) (p : Features → Int) (sc : Features → ℚ) :
    ∃ results threats,
      mainThreats g s p sc = Except.ok ((generate_sample_data 200 g).1, threats) ∧
      (detect_anomalies (train (initDetector (1/5)) s p sc)
        (generate_sample_data 200 g).1).1 = Except.ok results ∧
      threats.length = (results.filter isFlagged).length ∧
      (∀ i, i < threats.length →
        lookupVal (threats.getD i []) "user_id" =
          lookupVal ((results.filter isFlagged).getD i []) "user_id") ∧
      (∀ t ∈ threats, ∃ r ∈ (generate_sample_data 200 g).1,
        lookupVal t "user_id" = lookupVal r "user_id") := by
  set cloud := (generate_sample_data 200 g).1 with hcloud
  set d := train (initDetector (1/5)) s p sc with hdst
  have hshape : ∀ r ∈ cloud, ∃ (uid : String) (l : Nat) (c ni no : ℚ) (st : String),
      r = activityRow uid l c ni no st := generateTable_row_shape 42 200
  obtain ⟨results, hres⟩ := mapExcept_ok_of_all (scoreOne d) cloud (by
    intro row hrow
    obtain ⟨uid, l, c, ni, no, st, heq⟩ := hshape row hrow
    exact ⟨_, by rw [heq]; exact scoreOne_activityRow d uid l c ni no st⟩)
  have hdet : (detect_anomalies d cloud).1 = Except.ok results := by
    unfold detect_anomalies
    rw [show d.is_trained = true from rfl]
    simpa using hres
  have hresShape : ∀ rr ∈ results, ∃ (uid : String) (l : Nat) (c ni no : ℚ)
      (st : String) (b : Bool) (q : ℚ), rr = scoredRow uid l c ni no st b q ∧
      ∃ r ∈ cloud, r = activityRow uid l c ni no st := by
    intro rr hrr
    obtain ⟨x, hx, hscx⟩ := mapExcept_ok_mem hres rr hrr
    obtain ⟨uid, l, c, ni, no, st, heq⟩ := hshape x hx
    rw [heq, scoreOne_activityRow] at hscx
    injection hscx with hscx
    exact ⟨uid, l, c, ni, no, st, _, _, hscx.symm, x, hx, heq⟩
  obtain ⟨threats, hth⟩ := mapExcept_ok_of_all mkThreat (results.filter isFlagged) (by
    intro a ha
    obtain ⟨uid, l, c, ni, no, st, b, q, haEq, -⟩ :=
      hresShape a (List.mem_of_mem_filter ha)
    exact ⟨_, by rw [haEq]; exact mkThreat_scoredRow uid l c ni no st b q⟩)
  have hmain : mainThreats g s p sc = Except.ok (cloud, threats) := by
    unfold mainThreats
    simp only [bind, Except.bind, ← hcloud, ← hdst, hdet, hth]
  have hlen : threats.length = (results.filter isFlagged).length := mapExcept_ok_length hth
  refine ⟨results, threats, hmain, hdet, hlen, ?_, ?_⟩
  · intro i hi
    have hi' : i < (results.filter isFlagged).length := by omega
    have hmk := mapExcept_ok_getD hth ([] : Row) ([] : Row) i hi'
    have hmem : (results.filter isFlagged).getD i [] ∈ results.filter isFlagged :=
      getD_mem _ i [] hi'
    obtain ⟨uid, l, c, ni, no, st, b, q, haEq, -⟩ :=
      hresShape _ (List.mem_of_mem_filter hmem)
    rw [haEq, mkThreat_scoredRow] at hmk
    injection hmk with hmk
    rw [← hmk, haEq, lookupVal_scoredRow_user]
    rfl
  · intro t ht
    obtain ⟨a, ha, hmk⟩ := mapExcept_ok_mem hth t ht
    obtain ⟨uid, l, c, ni, no, st, b, q, haEq, r, hrCloud, hrEq⟩ :=
      hresShape a (List.mem_of_mem_filter ha)
    rw [haEq, mkThreat_scoredRow] at hmk
    injection hmk with hmk
    refine ⟨r, hrCloud, ?_⟩
    rw [← hmk, hrEq]
    rfl

end CloudSec
